import Mathlib

/-!
# `static/js/consulta_actions.js`: AJAX cancel / delete of a consulta

A shallow embedding of the script.  The script is a `DOMContentLoaded` callback that

* declares `handleSubmit(event)`, and
* attaches it as the `submit` listener of every element selected by
  `form.js-consulta-cancelar, form.js-consulta-eliminar`.

Everything the script does is an observable call into the browser, so a run is modelled as the
sequence of those calls (`Effect`), in program order.  What the browser and the user answer
(the reply to `confirm`, how the `fetch` promise settles, how `r.json()` settles, whether the
`href` setter accepts a value) is not decided by the script; it is supplied by an `Env`.  The
selector is matched as the mode of the document (quirks mode or not) prescribes.
-/

namespace ConsultaActions

/-! ## JavaScript values -/

/-- An exception value (`err`): the error name and its message. -/
structure JsError where
  name : String
  message : String
deriving DecidableEq, Repr

/-- A JavaScript Number, as far as this script observes one: the script only ever applies
`ToBoolean` (in `if (...)`) and `ToString` (in the template literal and in the `href` setter) to
a value.  `isZero` says whether the number is `+0` or `-0` (JSON never yields `NaN`), `text` is
what `Number::toString` prints. -/
structure JsNumber where
  isZero : Bool
  text : String
deriving DecidableEq, Repr

/-- The values that `r.json()` can resolve with, plus `undefined` (what reading a missing
property yields).  An `object` is given by its own properties.  A `string` is a sequence of
Unicode scalar values: strings with unpaired surrogates are not represented. -/
inductive JsValue where
  | undefined
  | null
  | bool (b : Bool)
  | number (n : JsNumber)
  | string (s : String)
  | array (items : List JsValue)
  | object (props : List (String × JsValue))
deriving Repr

/-- The conversion `ToBoolean(v)`, the test that `if (v)` and `v && ...` perform:
`undefined`, `null`, `false`, zero and the empty string are falsy; every array and every object
is truthy. -/
def JsValue.toBoolean : JsValue → Bool
  | .undefined => false
  | .null => false
  | .bool b => b
  | .number n => !n.isZero
  | .string s => s != ""
  | .array _ => true
  | .object _ => true

/-- The `TypeError` of reading a property of `null` or `undefined`. -/
def propertyReadError (key : String) : JsError :=
  ⟨"TypeError", "Cannot read properties of null or undefined (reading " ++ key ++ ")"⟩

/-- The `TypeError` of converting to a string an object that has no callable `toString` or
`valueOf` yielding a primitive. -/
def toPrimitiveError : JsError :=
  ⟨"TypeError", "Cannot convert object to primitive value"⟩

/-- The read `v.key`, for a `key` that no built-in prototype defines (the script reads `error`
and `redirect_url` only).  On `null` and `undefined` the read throws; on an object it yields the
own property or `undefined`; on any other value (array, string, number, boolean) the lookup
goes to the prototype chain, which has no such key, and yields `undefined`. -/
def JsValue.getProp (v : JsValue) (key : String) : Except JsError JsValue :=
  match v with
  | .undefined => .error (propertyReadError key)
  | .null => .error (propertyReadError key)
  | .object props => .ok ((props.lookup key).getD .undefined)
  | _ => .ok .undefined

/-- Is the value `undefined` or `null`? -/
def JsValue.isNullish : JsValue → Bool
  | .undefined => true
  | .null => true
  | _ => false

mutual
/-- The conversion `ToString(v)`, as applied by a template literal.  A plain object prints as
`[object Object]` through `Object.prototype.toString`, unless an own property shadows
`toString`: a value parsed from JSON is never callable, `valueOf` returns no primitive either,
and the conversion throws.  An array prints through `Array.prototype.join`. -/
def JsValue.toJsString : JsValue → Except JsError String
  | .undefined => .ok "undefined"
  | .null => .ok "null"
  | .bool b => .ok (if b then "true" else "false")
  | .number n => .ok n.text
  | .string s => .ok s
  | .array items => joinItems items
  | .object props =>
      if (props.lookup "toString").isSome then .error toPrimitiveError
      else .ok "[object Object]"
termination_by structural v => v
/-- The string `Array.prototype.join` builds with the separator `,`, item by item from the
left: an `undefined` or `null` item prints as the empty string, every other item through
`ToString`. -/
def joinItems : List JsValue → Except JsError String
  | [] => .ok ""
  | x :: rest => do
      let a ← if x.isNullish then pure "" else x.toJsString
      match rest with
      | [] => pure a
      | _ :: _ =>
        let b ← joinItems rest
        pure (a ++ "," ++ b)
termination_by structural items => items
end

/-! ## The page: forms, requests, responses -/

/-- The fields of `form.dataset` the script reads: `confirm` is the value of the `data-confirm`
attribute, or `none` (JavaScript `undefined`) when the attribute is absent. -/
structure Dataset where
  confirm : Option String
deriving DecidableEq, Repr

/-- An element of the document, with what the script and its selector look at: the local name
(a form element is an element whose local name is `form`), the class list, `dataset`, the
value that reading `form.action` yields and, for a form, the entry list that
`new FormData(form)` collects from its current field values. -/
structure Element where
  localName : String
  classList : List String
  dataset : Dataset
  action : String
  entries : List (String × String)
deriving DecidableEq, Repr

/-- The submit event passed to the listener; `target` is the form being submitted. -/
structure SubmitEvent where
  target : Element
deriving DecidableEq, Repr

/-- A `FormData` object: its entry list. -/
structure FormData where
  entries : List (String × String)
deriving DecidableEq, Repr

/-- The constructor call `new FormData(form)`. -/
def FormData.ofForm (form : Element) : FormData :=
  ⟨form.entries⟩

/-- The two arguments of `fetch(url, { method, headers, body, credentials })`. -/
structure Request where
  url : String
  method : String
  headers : List (String × String)
  body : FormData
  credentials : String
deriving DecidableEq, Repr

/-- The `Response` the `fetch` promise resolves with: HTTP status code and body text. -/
structure Response where
  status : Nat
  body : String
deriving DecidableEq, Repr

/-- One observable call of the script into the browser. -/
inductive Effect where
  /-- The call `event.preventDefault()` -/
  | preventDefault
  /-- The call `confirm(msg)`, together with the answer the user gave -/
  | confirm (msg : String) (answer : Bool)
  /-- The call `fetch(url, init)` -/
  | fetch (req : Request)
  /-- The call `alert(msg)` -/
  | alert (msg : String)
  /-- The assignment `window.location.href = url`: the call of the setter, which then starts
  the navigation or throws -/
  | setHref (url : String)
  /-- The call `window.location.reload()` -/
  | reload
  /-- The call `console.error(err)` -/
  | consoleError (err : JsError)
deriving DecidableEq, Repr

/-- What the script does not decide: the answer of the user to a `confirm` dialog, how the
promise returned by `fetch` settles (rejected with an error, or resolved with a response), how
`r.json()` settles on a response body (rejected when the body is not JSON, or resolved with
the parsed value), and how the `href` setter of `window.location` ends on a value: it returns
(`none`) when the value parses as a URL against the base URL of the page, and it throws a
`SyntaxError` (`some err`) when the value does not parse.  `r.json()` reads the body only. -/
structure Env where
  confirm : String → Bool
  fetch : Request → Except JsError Response
  json : String → Except JsError JsValue
  hrefSetter : String → Option JsError

/-! ## `handleSubmit` -/

/-- The callback `data => { if (data.error) ... else if (data.redirect_url) ... else ... }`:
the calls it makes, and the exception it throws, if any.  The template literal converts
`data.error` to a string, and so does the `href` setter with the value assigned to it.  A throw
while reading a property of `null` or while converting a value to a string precedes every call;
the `href` setter throws, when it does, in the assignment itself. -/
def onData (env : Env) (data : JsValue) : List Effect × Option JsError :=
  match data.getProp "error" with
  | .error thrown => ([], some thrown)
  | .ok error =>
    if error.toBoolean then
      match error.toJsString with
      | .error thrown => ([], some thrown)
      | .ok text => ([.alert ("⚠️ " ++ text)], none)
    else
      match data.getProp "redirect_url" with
      | .error thrown => ([], some thrown)
      | .ok redirect_url =>
        if redirect_url.toBoolean then
          match redirect_url.toJsString with
          | .error thrown => ([], some thrown)
          | .ok url => ([.setHref url], env.hrefSetter url)
        else
          ([.reload], none)

/-- The promise chain `fetch(...).then(r => r.json()).then(data => ...).catch(err =>
console.error(err))`, from the point where the `fetch` promise settles: a rejection at any stage
(of `fetch`, of `r.json()`, or an exception thrown by the `data` callback) skips the remaining
`then` callbacks and reaches the `catch` callback. -/
def settle (env : Env) (fetched : Except JsError Response) : List Effect :=
  let parsed : Except JsError JsValue := do
    let r ← fetched
    env.json r.body
  match parsed with
  | .error err => [.consoleError err]
  | .ok data =>
    match onData env data with
    | (effects, none) => effects
    | (effects, some err) => effects ++ [.consoleError err]

/-- The request that `handleSubmit` passes to `fetch`. -/
def requestOf (form : Element) : Request :=
  { url := form.action
    method := "POST"
    headers := [("X-Requested-With", "XMLHttpRequest")]
    body := FormData.ofForm form
    credentials := "same-origin" }

/-- The part of `handleSubmit` after the confirmation guard: build the form data, call `fetch`,
and run the promise chain. -/
def submit (env : Env) (form : Element) : List Effect :=
  let req := requestOf form
  .fetch req :: settle env (env.fetch req)

/-- The listener `handleSubmit(event)`: all the calls of one run, in order.  The first
statement is `event.preventDefault()`.  In `confirmMsg && !confirm(confirmMsg)` the dialog is
shown only for a truthy `confirmMsg`, that is, when `data-confirm` is present and not empty;
when the user declines, the listener returns. -/
def handleSubmit (env : Env) (event : SubmitEvent) : List Effect :=
  let form := event.target
  let confirmMsg := form.dataset.confirm
  .preventDefault ::
    match confirmMsg with
    | none => submit env form
    | some msg =>
      if msg = "" then submit env form
      else
        let answer := env.confirm msg
        if !answer then [.confirm msg answer]
        else .confirm msg answer :: submit env form

/-! ## The `DOMContentLoaded` callback -/

/-- A document, with what the selector depends on: whether the document is in quirks mode
(`document.compatMode` is `BackCompat`, as for a page without a doctype), and its elements in
tree order.  An element is named by its position in `elements`. -/
structure Document where
  quirksMode : Bool
  elements : List Element
deriving DecidableEq, Repr

/-- The ASCII lowercase of a string: the letters `A` to `Z` are lowered, every other character
is kept. -/
def asciiLowercase (s : String) : String :=
  ⟨s.data.map Char.toLower⟩

/-- Does a class of an element match the class selector `.name`?  The comparison is
case-sensitive, except in a quirks-mode document, where it is ASCII case-insensitive. -/
def classMatches (quirksMode : Bool) (className name : String) : Bool :=
  if quirksMode then asciiLowercase className == asciiLowercase name
  else className == name

/-- Does the element match `form.js-consulta-cancelar, form.js-consulta-eliminar`?  The type
selector `form` compares the local name of the element. -/
def matchesSelector (quirksMode : Bool) (el : Element) : Bool :=
  (el.localName == "form"
      && el.classList.any fun c => classMatches quirksMode c "js-consulta-cancelar")
    || (el.localName == "form"
      && el.classList.any fun c => classMatches quirksMode c "js-consulta-eliminar")

/-- The call `document.querySelectorAll(selector)`.  The result lists, in tree order, each
matching element once. -/
def querySelectorAll (document : Document) : List Nat :=
  (List.range document.elements.length).filter fun i =>
    match document.elements[i]? with
    | some el => matchesSelector document.quirksMode el
    | none => false

/-- The listeners there are; `handleSubmit` is the closure the callback declares. -/
inductive Listener where
  | handleSubmit
deriving DecidableEq, Repr

/-- A call `element.addEventListener(type, listener)`. -/
structure AddEventListener where
  element : Nat
  type : String
  listener : Listener
deriving DecidableEq, Repr

/-- The `DOMContentLoaded` callback: `querySelectorAll(...).forEach(form =>
form.addEventListener("submit", handleSubmit))`, as the list of its `addEventListener` calls. -/
def onDOMContentLoaded (document : Document) : List AddEventListener :=
  (querySelectorAll document).map fun form => ⟨form, "submit", .handleSubmit⟩

/-! ## Reading a run -/

/-- Is the call a `fetch`? -/
def Effect.isFetch : Effect → Bool
  | .fetch _ => true
  | _ => false

/-! ## Sample pages and environments -/

/-- The form of the delete scenario: class `js-consulta-eliminar`, a confirmation message and
the action `/consulta/5/eliminar`, with one hidden field. -/
def eliminarForm : Element :=
  { localName := "form"
    classList := ["js-consulta-eliminar"]
    dataset := ⟨some "Delete this record?"⟩
    action := "/consulta/5/eliminar"
    entries := [("csrf_token", "t0k3n")] }

/-- The body texts that `sampleJson` takes as JSON, each with the value it parses to; every
other body is rejected. -/
def sampleJson (body : String) : Except JsError JsValue :=
  if body = "\x7b\x7d" then
    .ok (.object [])
  else if body = "\x7b\"redirect_url\": \"/consultas\"\x7d" then
    .ok (.object [("redirect_url", .string "/consultas")])
  else if body = "\x7b\"error\": \"No autorizado\"\x7d" then
    .ok (.object [("error", .string "No autorizado")])
  else if body = "\x7b\"error\": \"No autorizado\", \"redirect_url\": \"/consultas\"\x7d" then
    .ok (.object [("error", .string "No autorizado"), ("redirect_url", .string "/consultas")])
  else if body = "\x7b\"error\": \"\"\x7d" then
    .ok (.object [("error", .string "")])
  else if body = "\x7b\"redirect_url\": \"\"\x7d" then
    .ok (.object [("redirect_url", .string "")])
  else if body = "\x7b\"error\": \"\", \"redirect_url\": \"/consultas\"\x7d" then
    .ok (.object [("error", .string ""), ("redirect_url", .string "/consultas")])
  else if body = "\x7b\"redirect_url\": \"http://[\"\x7d" then
    .ok (.object [("redirect_url", .string "http://[")])
  else
    .error ⟨"SyntaxError", "Unexpected token"⟩

/-- The `href` setter of the sample environments: `http://[` does not parse as a URL, every
other value used in the samples does. -/
def sampleHrefSetter (url : String) : Option JsError :=
  if url = "http://[" then some ⟨"SyntaxError", "Invalid URL"⟩ else none

/-- The cancel form: class `js-consulta-cancelar` among others, no confirmation message. -/
def cancelarForm : Element :=
  { localName := "form"
    classList := ["btn", "js-consulta-cancelar"]
    dataset := ⟨none⟩
    action := "/consulta/5/cancelar"
    entries := [] }

/-- A `div` that carries the cancel class. -/
def markedDiv : Element :=
  { localName := "div"
    classList := ["js-consulta-cancelar"]
    dataset := ⟨none⟩
    action := ""
    entries := [] }

/-- A form without either class. -/
def searchForm : Element :=
  { localName := "form"
    classList := ["search"]
    dataset := ⟨none⟩
    action := "/buscar"
    entries := [("q", "")] }

/-- A page that is not in quirks mode, with four elements: the cancel form, the `div` that
carries the cancel class, the form without either class, and the delete form. -/
def samplePage : Document :=
  ⟨false, [cancelarForm, markedDiv, searchForm, eliminarForm]⟩

/-- A form whose only class is the cancel class written in capitals. -/
def capitalsForm : Element :=
  { localName := "form"
    classList := ["JS-CONSULTA-CANCELAR"]
    dataset := ⟨none⟩
    action := "/consulta/5/cancelar"
    entries := [] }

/-- A page in quirks mode whose only element is `capitalsForm`. -/
def quirksPage : Document :=
  ⟨true, [capitalsForm]⟩

/-- An environment: the user answers `answer` to every dialog and the server replies with
`response`. -/
def sampleEnv (answer : Bool) (response : Response) : Env :=
  { confirm := fun _ => answer
    fetch := fun _ => .ok response
    json := sampleJson
    hrefSetter := sampleHrefSetter }

/-- An environment in which the network is down: `fetch` rejects. -/
def offlineEnv : Env :=
  { confirm := fun _ => true
    fetch := fun _ => .error ⟨"TypeError", "Failed to fetch"⟩
    json := sampleJson
    hrefSetter := sampleHrefSetter }

/-! ## Shape of a run -/

/-- The `data` callback on an object, by the values of its two properties. -/
theorem onData_object (env : Env) (props : List (String × JsValue)) :
    onData env (.object props) =
      if ((props.lookup "error").getD .undefined).toBoolean then
        match ((props.lookup "error").getD .undefined).toJsString with
        | .error thrown => ([], some thrown)
        | .ok text => ([.alert ("⚠️ " ++ text)], none)
      else if ((props.lookup "redirect_url").getD .undefined).toBoolean then
        match ((props.lookup "redirect_url").getD .undefined).toJsString with
        | .error thrown => ([], some thrown)
        | .ok url => ([.setHref url], env.hrefSetter url)
      else ([.reload], none) := by
  simp only [onData, JsValue.getProp]

/-- The `data` callback makes at most one call: an alert, an assignment of the location or a
reload; and only the assignment can be followed by a throw. -/
theorem onData_shape (env : Env) (data : JsValue) :
    (∃ thrown, onData env data = ([], some thrown))
      ∨ (∃ text, onData env data = ([.alert text], none))
      ∨ (∃ url, onData env data = ([.setHref url], env.hrefSetter url))
      ∨ onData env data = ([.reload], none) := by
  unfold onData
  split
  · exact Or.inl ⟨_, rfl⟩
  · split
    · split
      · exact Or.inl ⟨_, rfl⟩
      · exact Or.inr (Or.inl ⟨_, rfl⟩)
    · split
      · exact Or.inl ⟨_, rfl⟩
      · split
        · split
          · exact Or.inl ⟨_, rfl⟩
          · exact Or.inr (Or.inr (Or.inl ⟨_, rfl⟩))
        · exact Or.inr (Or.inr (Or.inr rfl))

/-- The chain when `fetch` resolved and the body parsed: the calls of the `data` callback,
followed by the diagnostic of the exception it threw, if any. -/
theorem settle_of_json (env : Env) (r : Response) (data : JsValue)
    (hJson : env.json r.body = .ok data) :
    settle env (.ok r) = match onData env data with
      | (effects, none) => effects
      | (effects, some err) => effects ++ [.consoleError err] := by
  simp [settle, bind, Except.bind, hJson]

/-- Once the `fetch` promise has settled, the chain makes only alerts, assignments of the
location, reloads and console diagnostics. -/
theorem settle_mem (env : Env) (fetched : Except JsError Response) (e : Effect)
    (he : e ∈ settle env fetched) :
    (∃ text, e = .alert text) ∨ (∃ url, e = .setHref url) ∨ e = .reload
      ∨ ∃ err, e = .consoleError err := by
  cases fetched with
  | error err =>
    have hs : settle env (.error err) = [.consoleError err] := rfl
    rw [hs] at he
    exact Or.inr (Or.inr (Or.inr ⟨err, by simpa using he⟩))
  | ok r =>
    cases hJson : env.json r.body with
    | error err =>
      have hs : settle env (.ok r) = [.consoleError err] := by
        simp [settle, bind, Except.bind, hJson]
      rw [hs] at he
      exact Or.inr (Or.inr (Or.inr ⟨err, by simpa using he⟩))
    | ok data =>
      rw [settle_of_json env r data hJson] at he
      rcases onData_shape env data with ⟨t, h⟩ | ⟨t, h⟩ | ⟨u, h⟩ | h
      · rw [h] at he
        exact Or.inr (Or.inr (Or.inr ⟨t, by simpa using he⟩))
      · rw [h] at he
        exact Or.inl ⟨t, by simpa using he⟩
      · rw [h] at he
        cases hset : env.hrefSetter u with
        | none =>
          rw [hset] at he
          exact Or.inr (Or.inl ⟨u, by simpa using he⟩)
        | some err =>
          rw [hset] at he
          simp only [List.singleton_append, List.mem_cons, List.mem_singleton,
            List.not_mem_nil, or_false] at he
          rcases he with he | he
          · exact Or.inr (Or.inl ⟨u, he⟩)
          · exact Or.inr (Or.inr (Or.inr ⟨err, he⟩))
      · rw [h] at he
        exact Or.inr (Or.inr (Or.inl (by simpa using he)))

/-- The three ways a run of `handleSubmit` goes: straight to the request (no message, or an
empty one), to the request after an accepted dialog, or stopped by a declined dialog. -/
theorem handleSubmit_cases (env : Env) (event : SubmitEvent) :
    ((event.target.dataset.confirm = none ∨ event.target.dataset.confirm = some "")
        ∧ handleSubmit env event = .preventDefault :: submit env event.target)
    ∨ (∃ msg, event.target.dataset.confirm = some msg ∧ msg ≠ "" ∧ env.confirm msg = true
        ∧ handleSubmit env event = .preventDefault :: .confirm msg true :: submit env event.target)
    ∨ (∃ msg, event.target.dataset.confirm = some msg ∧ msg ≠ "" ∧ env.confirm msg = false
        ∧ handleSubmit env event = [.preventDefault, .confirm msg false]) := by
  unfold handleSubmit
  cases hc : event.target.dataset.confirm with
  | none => simp [hc]
  | some msg =>
    by_cases hm : msg = ""
    · simp [hc, hm]
    · cases ha : env.confirm msg <;> simp [hc, hm, ha]

/-- No dialog, no `preventDefault` and no second request happens from the request on. -/
theorem submit_shape (env : Env) (form : Element) :
    ∃ tail, submit env form = .fetch (requestOf form) :: tail ∧ Effect.preventDefault ∉ tail
      ∧ (∀ msg answer, Effect.confirm msg answer ∉ tail) ∧ (∀ req, Effect.fetch req ∉ tail) := by
  refine ⟨settle env (env.fetch (requestOf form)), rfl, ?_, ?_, ?_⟩
  · intro h
    rcases settle_mem env _ _ h with ⟨_, h⟩ | ⟨_, h⟩ | h | ⟨_, h⟩ <;> cases h
  · intro msg answer h
    rcases settle_mem env _ _ h with ⟨_, h⟩ | ⟨_, h⟩ | h | ⟨_, h⟩ <;> cases h
  · intro req h
    rcases settle_mem env _ _ h with ⟨_, h⟩ | ⟨_, h⟩ | h | ⟨_, h⟩ <;> cases h

/-! ## The confirmation guard and the request -/

/-- C7: on every run of `handleSubmit` (no message, an accepted dialog, a declined dialog)
the first call is `event.preventDefault()`, ahead of any dialog and any request, and it is
made once. -/
theorem handleSubmit_preventDefault_first (env : Env) (event : SubmitEvent) :
    ∃ rest, handleSubmit env event = .preventDefault :: rest ∧ Effect.preventDefault ∉ rest := by
  rcases handleSubmit_cases env event with ⟨_, h⟩ | ⟨msg, _, _, _, h⟩ | ⟨msg, _, _, _, h⟩
  · obtain ⟨tail, hs, hpd, _, _⟩ := submit_shape env event.target
    exact ⟨_, h, by simp [hs, hpd]⟩
  · obtain ⟨tail, hs, hpd, _, _⟩ := submit_shape env event.target
    exact ⟨_, h, by simp [hs, hpd]⟩
  · exact ⟨_, h, by simp⟩

/-- C1: on a form whose `data-confirm` holds the message `msg`, a run in which the user
declines the dialog (the run contains `confirm(msg)` answered `false`) consists of the
`preventDefault` call and the dialog only: no `fetch`, no alert, no navigation, no reload, no
console diagnostic. -/
theorem handleSubmit_declined (env : Env) (event : SubmitEvent) (msg : String)
    (hcfg : event.target.dataset.confirm = some msg)
    (hdecl : Effect.confirm msg false ∈ handleSubmit env event) :
    handleSubmit env event = [.preventDefault, .confirm msg false] := by
  rcases handleSubmit_cases env event with ⟨_, h⟩ | ⟨m, hm, _, _, h⟩ | ⟨m, hm, _, _, h⟩
  · obtain ⟨tail, hs, _, hc, _⟩ := submit_shape env event.target
    rw [h, hs] at hdecl
    simp at hdecl
    exact absurd hdecl (hc msg false)
  · obtain ⟨tail, hs, _, hc, _⟩ := submit_shape env event.target
    rw [h, hs] at hdecl
    simp at hdecl
    exact absurd hdecl (hc msg false)
  · rw [hcfg] at hm
    injection hm with hm
    rw [h, hm]

/-- Witness of C1: the delete form, with a user who declines. -/
theorem handleSubmit_declined_witness :
    eliminarForm.dataset.confirm = some "Delete this record?"
      ∧ Effect.confirm "Delete this record?" false
          ∈ handleSubmit (sampleEnv false ⟨200, "\x7b\x7d"⟩) ⟨eliminarForm⟩
      ∧ handleSubmit (sampleEnv false ⟨200, "\x7b\x7d"⟩) ⟨eliminarForm⟩
          = [.preventDefault, .confirm "Delete this record?" false] :=
  ⟨rfl, by decide, handleSubmit_declined _ _ _ rfl (by decide)⟩

/-- C8: a run that is not stopped by the guard (whenever `data-confirm` holds a non-empty
message, the user accepts it) issues exactly one request: `POST` to the action of the form, with
the header `X-Requested-With: XMLHttpRequest`, the credentials policy `same-origin`, and the
form data of the form as body. -/
theorem handleSubmit_request (env : Env) (event : SubmitEvent)
    (hgo : ∀ msg, event.target.dataset.confirm = some msg → msg ≠ "" → env.confirm msg = true) :
    (handleSubmit env event).filter Effect.isFetch =
      [.fetch
        { url := event.target.action
          method := "POST"
          headers := [("X-Requested-With", "XMLHttpRequest")]
          body := ⟨event.target.entries⟩
          credentials := "same-origin" }] := by
  have hfilter : (submit env event.target).filter Effect.isFetch
      = [.fetch (requestOf event.target)] := by
    obtain ⟨tail, hs, _, _, hf⟩ := submit_shape env event.target
    have htail : tail.filter Effect.isFetch = [] := by
      rw [List.filter_eq_nil_iff]
      intro e he hfetch
      cases e <;> simp [Effect.isFetch] at hfetch
      exact hf _ he
    rw [hs, List.filter_cons_of_pos (by rfl), htail]
  rcases handleSubmit_cases env event with ⟨_, h⟩ | ⟨m, _, _, _, h⟩ | ⟨m, hc, hne, hno, _⟩
  · rw [h]
    simpa [Effect.isFetch, requestOf, FormData.ofForm] using hfilter
  · rw [h]
    simpa [Effect.isFetch, requestOf, FormData.ofForm] using hfilter
  · rw [hgo m hc hne] at hno
    cases hno

/-- Witness of C8: the delete scenario.  The user accepts the dialog and one `POST` goes to
`/consulta/5/eliminar` with the fields of the form. -/
theorem handleSubmit_request_witness :
    (∀ msg, eliminarForm.dataset.confirm = some msg → msg ≠ ""
        → (sampleEnv true ⟨200, "\x7b\x7d"⟩).confirm msg = true)
      ∧ (handleSubmit (sampleEnv true ⟨200, "\x7b\x7d"⟩) ⟨eliminarForm⟩).filter Effect.isFetch =
        [.fetch
          { url := "/consulta/5/eliminar"
            method := "POST"
            headers := [("X-Requested-With", "XMLHttpRequest")]
            body := ⟨[("csrf_token", "t0k3n")]⟩
            credentials := "same-origin" }] :=
  ⟨fun _ _ _ => rfl, handleSubmit_request (sampleEnv true ⟨200, "\x7b\x7d"⟩) ⟨eliminarForm⟩
    (fun _ _ _ => rfl)⟩

/-- C6: when the request was issued and failed in transport (`fetch` rejected with `err`, or
`fetch` resolved and `r.json()` rejected with `err`), the run is `preventDefault`, the accepted
dialog if there was one, the one `fetch` and one `console.error(err)`: no alert, no navigation,
no reload, no second request. -/
theorem handleSubmit_transport_failure (env : Env) (event : SubmitEvent) (err : JsError)
    (hissued : Effect.fetch (requestOf event.target) ∈ handleSubmit env event)
    (hfail : env.fetch (requestOf event.target) = .error err
      ∨ ∃ r, env.fetch (requestOf event.target) = .ok r ∧ env.json r.body = .error err) :
    handleSubmit env event
        = [.preventDefault, .fetch (requestOf event.target), .consoleError err]
      ∨ ∃ msg, handleSubmit env event
        = [.preventDefault, .confirm msg true, .fetch (requestOf event.target),
            .consoleError err] := by
  have hsubmit : submit env event.target
      = [.fetch (requestOf event.target), .consoleError err] := by
    unfold submit settle
    rcases hfail with h | ⟨r, h, hj⟩
    · simp [h, bind, Except.bind]
    · simp [h, hj, bind, Except.bind]
  rcases handleSubmit_cases env event with ⟨_, h⟩ | ⟨m, _, _, _, h⟩ | ⟨m, _, _, _, h⟩
  · exact Or.inl (by rw [h, hsubmit])
  · exact Or.inr ⟨m, by rw [h, hsubmit]⟩
  · rw [h] at hissued
    simp at hissued

/-- Witness of C6: the delete form submitted while the network is down. -/
theorem handleSubmit_transport_failure_witness :
    Effect.fetch (requestOf eliminarForm) ∈ handleSubmit offlineEnv ⟨eliminarForm⟩
      ∧ (handleSubmit offlineEnv ⟨eliminarForm⟩
          = [.preventDefault, .fetch (requestOf eliminarForm),
              .consoleError ⟨"TypeError", "Failed to fetch"⟩]
        ∨ ∃ msg, handleSubmit offlineEnv ⟨eliminarForm⟩
          = [.preventDefault, .confirm msg true, .fetch (requestOf eliminarForm),
              .consoleError ⟨"TypeError", "Failed to fetch"⟩]) :=
  ⟨by decide, handleSubmit_transport_failure offlineEnv ⟨eliminarForm⟩
    ⟨"TypeError", "Failed to fetch"⟩ (by decide) (Or.inl rfl)⟩

/-! ## The three branches on the payload -/

/-- C2, as the code has it: for every non-empty string `X`, on the payload with the only
property `error` equal to `X` the handler shows exactly one alert, with the text of the warning
sign, a blank and `X`, and neither navigates nor reloads. -/
theorem settle_error (env : Env) (r : Response) (X : String)
    (hJson : env.json r.body = .ok (.object [("error", .string X)])) (hX : X ≠ "") :
    settle env (.ok r) = [.alert ("⚠️ " ++ X)] := by
  rw [settle_of_json env r _ hJson, onData_object]
  simp [List.lookup, JsValue.toBoolean, JsValue.toJsString, hX]

/-- Witness of C2 as amended: the server answers with the error `No autorizado`. -/
theorem settle_error_witness :
    (sampleEnv true ⟨403, "\x7b\"error\": \"No autorizado\"\x7d"⟩).json
          (Response.body ⟨403, "\x7b\"error\": \"No autorizado\"\x7d"⟩)
        = .ok (.object [("error", .string "No autorizado")])
      ∧ "No autorizado" ≠ ""
      ∧ settle (sampleEnv true ⟨403, "\x7b\"error\": \"No autorizado\"\x7d"⟩)
          (.ok ⟨403, "\x7b\"error\": \"No autorizado\"\x7d"⟩)
        = [.alert ("⚠️ " ++ "No autorizado")] :=
  ⟨rfl, by decide, settle_error _ _ _ rfl (by decide)⟩

/-- Counterexample to C2 as stated: on the payload whose `error` is the empty string, the
handler shows no alert and reloads the page. -/
theorem settle_error_empty_counterexample :
    (sampleEnv true ⟨200, "\x7b\"error\": \"\"\x7d"⟩).json
          (Response.body ⟨200, "\x7b\"error\": \"\"\x7d"⟩)
        = .ok (.object [("error", .string "")])
      ∧ settle (sampleEnv true ⟨200, "\x7b\"error\": \"\"\x7d"⟩)
          (.ok ⟨200, "\x7b\"error\": \"\"\x7d"⟩) = [.reload]
      ∧ settle (sampleEnv true ⟨200, "\x7b\"error\": \"\"\x7d"⟩)
          (.ok ⟨200, "\x7b\"error\": \"\"\x7d"⟩) ≠ [.alert ("⚠️ " ++ "")] :=
  ⟨rfl, rfl, by decide⟩

/-- C3, as the code has it: for every non-empty URL string `y` (a string that the `href`
setter parses as a URL), on an object payload without the property `error` and with
`redirect_url` equal to `y`, the handler assigns exactly `y` to `window.location.href`, and
neither alerts nor reloads; nothing else happens. -/
theorem settle_redirect (env : Env) (r : Response) (props : List (String × JsValue))
    (y : String) (hJson : env.json r.body = .ok (.object props))
    (hError : props.lookup "error" = none)
    (hUrl : props.lookup "redirect_url" = some (.string y)) (hy : y ≠ "")
    (hparse : env.hrefSetter y = none) :
    settle env (.ok r) = [.setHref y] := by
  rw [settle_of_json env r _ hJson, onData_object]
  simp [hError, hUrl, JsValue.toBoolean, JsValue.toJsString, hy, hparse]

/-- Witness of C3 as amended: the delete scenario, the server answers with the redirection to
`/consultas`. -/
theorem settle_redirect_witness :
    (sampleEnv true ⟨200, "\x7b\"redirect_url\": \"/consultas\"\x7d"⟩).json
          (Response.body ⟨200, "\x7b\"redirect_url\": \"/consultas\"\x7d"⟩)
        = .ok (.object [("redirect_url", .string "/consultas")])
      ∧ List.lookup "error" [("redirect_url", JsValue.string "/consultas")] = none
      ∧ List.lookup "redirect_url" [("redirect_url", JsValue.string "/consultas")]
        = some (.string "/consultas")
      ∧ "/consultas" ≠ ""
      ∧ (sampleEnv true ⟨200, "\x7b\"redirect_url\": \"/consultas\"\x7d"⟩).hrefSetter
          "/consultas" = none
      ∧ settle (sampleEnv true ⟨200, "\x7b\"redirect_url\": \"/consultas\"\x7d"⟩)
          (.ok ⟨200, "\x7b\"redirect_url\": \"/consultas\"\x7d"⟩) = [.setHref "/consultas"] :=
  ⟨rfl, rfl, rfl, by decide, rfl, settle_redirect _ _ _ _ rfl rfl rfl (by decide) rfl⟩

/-- Counterexample to C3 as stated: on the payload whose `redirect_url` is the empty string
(and without `error`), a string that the `href` setter would accept, the handler assigns no
location and reloads the page. -/
theorem settle_redirect_empty_counterexample :
    (sampleEnv true ⟨200, "\x7b\"redirect_url\": \"\"\x7d"⟩).json
          (Response.body ⟨200, "\x7b\"redirect_url\": \"\"\x7d"⟩)
        = .ok (.object [("redirect_url", .string "")])
      ∧ List.lookup "error" [("redirect_url", JsValue.string "")] = none
      ∧ (sampleEnv true ⟨200, "\x7b\"redirect_url\": \"\"\x7d"⟩).hrefSetter "" = none
      ∧ settle (sampleEnv true ⟨200, "\x7b\"redirect_url\": \"\"\x7d"⟩)
          (.ok ⟨200, "\x7b\"redirect_url\": \"\"\x7d"⟩) = [.reload]
      ∧ settle (sampleEnv true ⟨200, "\x7b\"redirect_url\": \"\"\x7d"⟩)
          (.ok ⟨200, "\x7b\"redirect_url\": \"\"\x7d"⟩) ≠ [.setHref ""] :=
  ⟨rfl, rfl, rfl, rfl, by decide⟩

/-- When the `href` setter throws on the value of `redirect_url`, the assignment is followed
by the console diagnostic of the exception, and by nothing else. -/
theorem settle_redirect_rejected (env : Env) (r : Response) (props : List (String × JsValue))
    (y : String) (err : JsError) (hJson : env.json r.body = .ok (.object props))
    (hError : props.lookup "error" = none)
    (hUrl : props.lookup "redirect_url" = some (.string y)) (hy : y ≠ "")
    (hthrow : env.hrefSetter y = some err) :
    settle env (.ok r) = [.setHref y, .consoleError err] := by
  rw [settle_of_json env r _ hJson, onData_object]
  simp [hError, hUrl, JsValue.toBoolean, JsValue.toJsString, hy, hthrow]

/-- The sample server answers with a redirection that does not parse as a URL: the assignment
throws and the exception is logged. -/
theorem settle_redirect_rejected_example :
    settle (sampleEnv true ⟨200, "\x7b\"redirect_url\": \"http://[\"\x7d"⟩)
        (.ok ⟨200, "\x7b\"redirect_url\": \"http://[\"\x7d"⟩)
      = [.setHref "http://[", .consoleError ⟨"SyntaxError", "Invalid URL"⟩] :=
  settle_redirect_rejected _ _ _ _ _ rfl rfl rfl (by decide) rfl

/-- C4: on an object payload with neither the property `error` nor the property
`redirect_url`, the handler reloads the page exactly once, and neither alerts nor assigns a
location. -/
theorem settle_reload (env : Env) (r : Response) (props : List (String × JsValue))
    (hJson : env.json r.body = .ok (.object props))
    (hError : props.lookup "error" = none) (hUrl : props.lookup "redirect_url" = none) :
    settle env (.ok r) = [.reload] := by
  rw [settle_of_json env r _ hJson, onData_object]
  simp [hError, hUrl, JsValue.toBoolean]

/-- Witness of C4: the server answers with the empty object. -/
theorem settle_reload_witness :
    (sampleEnv true ⟨200, "\x7b\x7d"⟩).json (Response.body ⟨200, "\x7b\x7d"⟩)
        = .ok (.object [])
      ∧ List.lookup "error" ([] : List (String × JsValue)) = none
      ∧ List.lookup "redirect_url" ([] : List (String × JsValue)) = none
      ∧ settle (sampleEnv true ⟨200, "\x7b\x7d"⟩) (.ok ⟨200, "\x7b\x7d"⟩) = [.reload] :=
  ⟨rfl, rfl, rfl, settle_reload _ _ _ rfl rfl rfl⟩

/-- C5, as the code has it: the branches go by truthiness, not by presence.  On an object
payload whose `error` is a non-empty string the handler takes the error branch only, whatever
`redirect_url` is; a location is assigned only when `error` is falsy (absent, `null`, `false`,
zero or the empty string), and the page is reloaded only when `error` and `redirect_url` are
both falsy. -/
theorem settle_precedence (env : Env) (r : Response) (props : List (String × JsValue))
    (hJson : env.json r.body = .ok (.object props)) :
    (∀ X, props.lookup "error" = some (.string X) → X ≠ "" →
        settle env (.ok r) = [.alert ("⚠️ " ++ X)])
      ∧ (∀ url, Effect.setHref url ∈ settle env (.ok r) →
        ((props.lookup "error").getD .undefined).toBoolean = false)
      ∧ (Effect.reload ∈ settle env (.ok r) →
        ((props.lookup "error").getD .undefined).toBoolean = false
          ∧ ((props.lookup "redirect_url").getD .undefined).toBoolean = false) := by
  rw [settle_of_json env r _ hJson, onData_object]
  refine ⟨?_, ?_, ?_⟩
  · intro X hX hne
    simp [hX, JsValue.toBoolean, JsValue.toJsString, hne]
  · intro url hmem
    cases hE : ((props.lookup "error").getD .undefined).toBoolean with
    | false => rfl
    | true =>
      simp only [hE, if_true] at hmem
      cases hT : ((props.lookup "error").getD .undefined).toJsString <;>
        simp [hT] at hmem
  · intro hmem
    cases hE : ((props.lookup "error").getD .undefined).toBoolean with
    | true =>
      simp only [hE, if_true] at hmem
      cases hT : ((props.lookup "error").getD .undefined).toJsString <;>
        simp [hT] at hmem
    | false =>
      refine ⟨rfl, ?_⟩
      cases hU : ((props.lookup "redirect_url").getD .undefined).toBoolean with
      | false => rfl
      | true =>
        simp only [hE, hU, if_true] at hmem
        cases hT : ((props.lookup "redirect_url").getD .undefined).toJsString with
        | error thrown => simp [hT] at hmem
        | ok url => cases hS : env.hrefSetter url <;> simp [hT, hS] at hmem

/-- Witness of C5 as amended: a payload with an error message and a redirection; only the
alert happens. -/
theorem settle_precedence_witness :
    (sampleEnv true
          ⟨200, "\x7b\"error\": \"No autorizado\", \"redirect_url\": \"/consultas\"\x7d"⟩).json
        (Response.body
          ⟨200, "\x7b\"error\": \"No autorizado\", \"redirect_url\": \"/consultas\"\x7d"⟩)
        = .ok (.object [("error", .string "No autorizado"),
            ("redirect_url", .string "/consultas")])
      ∧ settle (sampleEnv true
            ⟨200, "\x7b\"error\": \"No autorizado\", \"redirect_url\": \"/consultas\"\x7d"⟩)
          (.ok ⟨200, "\x7b\"error\": \"No autorizado\", \"redirect_url\": \"/consultas\"\x7d"⟩)
        = [.alert ("⚠️ " ++ "No autorizado")] :=
  ⟨rfl, (settle_precedence _ _
    [("error", .string "No autorizado"), ("redirect_url", .string "/consultas")] rfl).1
    "No autorizado" rfl (by decide)⟩

/-- Counterexample to C5 as stated: `error` (the empty string) and `redirect_url` are both
present, and the handler assigns the location instead of taking the error branch. -/
theorem settle_precedence_counterexample :
    (sampleEnv true ⟨200, "\x7b\"error\": \"\", \"redirect_url\": \"/consultas\"\x7d"⟩).json
        (Response.body ⟨200, "\x7b\"error\": \"\", \"redirect_url\": \"/consultas\"\x7d"⟩)
        = .ok (.object [("error", .string ""), ("redirect_url", .string "/consultas")])
      ∧ List.lookup "error" [("error", JsValue.string ""),
            ("redirect_url", JsValue.string "/consultas")] = some (.string "")
      ∧ List.lookup "redirect_url" [("error", JsValue.string ""),
            ("redirect_url", JsValue.string "/consultas")] = some (.string "/consultas")
      ∧ settle (sampleEnv true
            ⟨200, "\x7b\"error\": \"\", \"redirect_url\": \"/consultas\"\x7d"⟩)
          (.ok ⟨200, "\x7b\"error\": \"\", \"redirect_url\": \"/consultas\"\x7d"⟩)
        = [.setHref "/consultas"] :=
  ⟨rfl, rfl, rfl, rfl⟩

/-! ## Status codes -/

/-- C9: the run does not depend on the status code.  Two runs on the same form in the same
page, with the same user answers, the same JSON reading and the same `href` setter, whose
responses carry the same body, make the same calls, whatever the two status codes; and a
response whose body `r.json()` rejects leads to the console diagnostic only, whatever its
status code. -/
theorem handleSubmit_status_independent (env₁ env₂ : Env) (event : SubmitEvent)
    (r₁ r₂ : Response) (hconfirm : env₁.confirm = env₂.confirm) (hjson : env₁.json = env₂.json)
    (hhref : env₁.hrefSetter = env₂.hrefSetter)
    (h₁ : env₁.fetch (requestOf event.target) = .ok r₁)
    (h₂ : env₂.fetch (requestOf event.target) = .ok r₂) (hbody : r₁.body = r₂.body) :
    handleSubmit env₁ event = handleSubmit env₂ event
      ∧ ∀ err, env₁.json r₁.body = .error err → settle env₁ (.ok r₁) = [.consoleError err] := by
  constructor
  · have hdata : ∀ data, onData env₁ data = onData env₂ data := by
      intro data
      simp only [onData, hhref]
    have hsettle : settle env₁ (.ok r₁) = settle env₂ (.ok r₂) := by
      simp only [settle, bind, Except.bind, hjson, hbody, hdata]
    simp only [handleSubmit, submit, h₁, h₂, hconfirm, hsettle]
  · intro err herr
    simp [settle, bind, Except.bind, herr]

/-- Witness of C9: the same error payload under status 200 and under status 500. -/
theorem handleSubmit_status_independent_witness :
    handleSubmit (sampleEnv true ⟨200, "\x7b\"error\": \"No autorizado\"\x7d"⟩) ⟨eliminarForm⟩
        = handleSubmit (sampleEnv true ⟨500, "\x7b\"error\": \"No autorizado\"\x7d"⟩)
            ⟨eliminarForm⟩
      ∧ ∀ err, (sampleEnv true ⟨200, "\x7b\"error\": \"No autorizado\"\x7d"⟩).json
            (Response.body ⟨200, "\x7b\"error\": \"No autorizado\"\x7d"⟩) = .error err →
          settle (sampleEnv true ⟨200, "\x7b\"error\": \"No autorizado\"\x7d"⟩)
            (.ok ⟨200, "\x7b\"error\": \"No autorizado\"\x7d"⟩) = [.consoleError err] :=
  handleSubmit_status_independent _ _ ⟨eliminarForm⟩ ⟨200, _⟩ ⟨500, _⟩ rfl rfl rfl rfl rfl rfl

/-! ## Initialization -/

/-- The selector in a document that is not in quirks mode: a `form` element with one of the
two classes. -/
theorem matchesSelector_noQuirks (el : Element) :
    matchesSelector false el = true ↔ el.localName = "form"
      ∧ ("js-consulta-cancelar" ∈ el.classList ∨ "js-consulta-eliminar" ∈ el.classList) := by
  simp only [matchesSelector, classMatches, Bool.or_eq_true, Bool.and_eq_true, beq_iff_eq,
    List.any_eq_true, Bool.false_eq_true, if_false, exists_eq_right]
  tauto

/-- The selector in a quirks-mode document: a `form` element with a class that is one of the
two classes up to the case of its ASCII letters. -/
theorem matchesSelector_quirks (el : Element) :
    matchesSelector true el = true ↔ el.localName = "form"
      ∧ ∃ c ∈ el.classList, asciiLowercase c = "js-consulta-cancelar"
          ∨ asciiLowercase c = "js-consulta-eliminar" := by
  have hc : asciiLowercase "js-consulta-cancelar" = "js-consulta-cancelar" := by decide
  have he : asciiLowercase "js-consulta-eliminar" = "js-consulta-eliminar" := by decide
  simp only [matchesSelector, classMatches, Bool.or_eq_true, Bool.and_eq_true, beq_iff_eq,
    List.any_eq_true, if_true, hc, he]
  constructor
  · rintro (⟨hf, c, hmem, h⟩ | ⟨hf, c, hmem, h⟩)
    · exact ⟨hf, c, hmem, Or.inl h⟩
    · exact ⟨hf, c, hmem, Or.inr h⟩
  · rintro ⟨hf, c, hmem, h | h⟩
    · exact Or.inl ⟨hf, c, hmem, h⟩
    · exact Or.inr ⟨hf, c, hmem, h⟩

/-- In either mode the selector matches a `form` element that carries one of the two classes
as written. -/
theorem matchesSelector_of_mem (quirksMode : Bool) (el : Element)
    (hform : el.localName = "form")
    (hclass : "js-consulta-cancelar" ∈ el.classList ∨ "js-consulta-eliminar" ∈ el.classList) :
    matchesSelector quirksMode el = true := by
  cases quirksMode with
  | false => exact (matchesSelector_noQuirks el).mpr ⟨hform, hclass⟩
  | true =>
    refine (matchesSelector_quirks el).mpr ⟨hform, ?_⟩
    rcases hclass with h | h
    · exact ⟨_, h, Or.inl (by decide)⟩
    · exact ⟨_, h, Or.inr (by decide)⟩

/-- The calls of the callback: one for each position that holds a matching element. -/
theorem mem_onDOMContentLoaded (document : Document) (call : AddEventListener) :
    call ∈ onDOMContentLoaded document ↔
      call.type = "submit" ∧ ∃ el, document.elements[call.element]? = some el
        ∧ matchesSelector document.quirksMode el = true := by
  unfold onDOMContentLoaded querySelectorAll
  simp only [List.mem_map, List.mem_filter, List.mem_range]
  constructor
  · rintro ⟨i, ⟨_, hmatch⟩, rfl⟩
    refine ⟨rfl, ?_⟩
    cases hget : document.elements[i]? with
    | none => rw [hget] at hmatch; cases hmatch
    | some el => rw [hget] at hmatch; exact ⟨el, rfl, hmatch⟩
  · rintro ⟨ht, el, hget, hmatch⟩
    refine ⟨call.element, ⟨?_, ?_⟩, ?_⟩
    · exact (List.getElem?_eq_some_iff.mp hget).1
    · rw [hget]; exact hmatch
    · cases call with
      | mk element type listener =>
        cases listener
        simp only at ht
        rw [ht]

/-- No call is made twice. -/
theorem nodup_onDOMContentLoaded (document : Document) :
    (onDOMContentLoaded document).Nodup := by
  unfold onDOMContentLoaded querySelectorAll
  refine List.Nodup.map ?_ ((List.nodup_range _).filter _)
  intro a b h
  injection h

/-- The number of calls on an element: one when the selector matches it, none otherwise. -/
theorem count_onDOMContentLoaded (document : Document) (i : Nat) (el : Element)
    (hget : document.elements[i]? = some el) :
    (onDOMContentLoaded document).count ⟨i, "submit", .handleSubmit⟩ =
      if matchesSelector document.quirksMode el = true then 1 else 0 := by
  by_cases hmatch : matchesSelector document.quirksMode el = true
  · rw [if_pos hmatch]
    exact List.count_eq_one_of_mem (nodup_onDOMContentLoaded document)
      ((mem_onDOMContentLoaded document _).mpr ⟨rfl, el, hget, hmatch⟩)
  · rw [if_neg hmatch]
    refine List.count_eq_zero_of_not_mem fun hmem => hmatch ?_
    obtain ⟨_, other, hget', hmatch'⟩ := (mem_onDOMContentLoaded document _).mp hmem
    have heq : some el = some other := hget.symm.trans hget'
    injection heq with heq
    rw [heq]
    exact hmatch'

/-- C10, as the code has it: the `DOMContentLoaded` callback calls
`addEventListener("submit", handleSubmit)` and nothing else, only on elements of the
document.  In every document it does so exactly once on each `form` element with class
`js-consulta-cancelar` or `js-consulta-eliminar`.  In a document that is not in quirks mode it
does so on no other element (a form with neither class, another element with such a class).
In a quirks-mode document the selector compares class names ASCII case-insensitively: the
elements with exactly one call are the `form` elements with a class equal to one of the two up
to letter case, and every other element gets none. -/
theorem onDOMContentLoaded_listeners (document : Document) :
    (∀ call ∈ onDOMContentLoaded document,
        call.type = "submit" ∧ call.listener = .handleSubmit
          ∧ call.element < document.elements.length)
      ∧ (∀ i el, document.elements[i]? = some el → el.localName = "form" →
        ("js-consulta-cancelar" ∈ el.classList ∨ "js-consulta-eliminar" ∈ el.classList) →
        (onDOMContentLoaded document).count ⟨i, "submit", .handleSubmit⟩ = 1)
      ∧ (document.quirksMode = false → ∀ i el, document.elements[i]? = some el →
        (onDOMContentLoaded document).count ⟨i, "submit", .handleSubmit⟩ =
          if el.localName = "form"
              ∧ ("js-consulta-cancelar" ∈ el.classList ∨ "js-consulta-eliminar" ∈ el.classList)
          then 1 else 0)
      ∧ (document.quirksMode = true → ∀ i el, document.elements[i]? = some el →
        (onDOMContentLoaded document).count ⟨i, "submit", .handleSubmit⟩ =
          if el.localName = "form"
              ∧ ∃ c ∈ el.classList, asciiLowercase c = "js-consulta-cancelar"
                  ∨ asciiLowercase c = "js-consulta-eliminar"
          then 1 else 0) := by
  refine ⟨?_, ?_, ?_, ?_⟩
  · intro call hcall
    obtain ⟨ht, el, hget, _⟩ := (mem_onDOMContentLoaded document call).mp hcall
    exact ⟨ht, by cases call.listener; rfl, (List.getElem?_eq_some_iff.mp hget).1⟩
  · intro i el hget hform hclass
    rw [count_onDOMContentLoaded document i el hget,
      if_pos (matchesSelector_of_mem _ el hform hclass)]
  · intro hmode i el hget
    rw [count_onDOMContentLoaded document i el hget, hmode]
    exact if_congr (matchesSelector_noQuirks el) rfl rfl
  · intro hmode i el hget
    rw [count_onDOMContentLoaded document i el hget, hmode]
    exact if_congr (matchesSelector_quirks el) rfl rfl

/-- Witness of C10 as amended: on the sample page, which is not in quirks mode, the listener
goes to the cancel form and to the delete form, once each; the `div` with the cancel class and
the form without a class get none. -/
theorem onDOMContentLoaded_listeners_witness :
    onDOMContentLoaded samplePage = [⟨0, "submit", .handleSubmit⟩, ⟨3, "submit", .handleSubmit⟩]
      ∧ (onDOMContentLoaded samplePage).count ⟨3, "submit", .handleSubmit⟩ = 1
      ∧ (onDOMContentLoaded samplePage).count ⟨1, "submit", .handleSubmit⟩ = 0
      ∧ (onDOMContentLoaded samplePage).count ⟨2, "submit", .handleSubmit⟩ = 0 :=
  ⟨rfl,
    (onDOMContentLoaded_listeners samplePage).2.1 3 eliminarForm rfl rfl (Or.inr (by decide)),
    ((onDOMContentLoaded_listeners samplePage).2.2.1 rfl 1 markedDiv rfl).trans
      (if_neg (by decide)),
    ((onDOMContentLoaded_listeners samplePage).2.2.1 rfl 2 searchForm rfl).trans
      (if_neg (by decide))⟩

/-- Counterexample to C10 as stated: in a quirks-mode page, a form that carries neither
`js-consulta-cancelar` nor `js-consulta-eliminar` (its class is written in capitals) gets the
listener. -/
theorem onDOMContentLoaded_quirks_counterexample :
    quirksPage.elements[0]? = some capitalsForm
      ∧ "js-consulta-cancelar" ∉ capitalsForm.classList
      ∧ "js-consulta-eliminar" ∉ capitalsForm.classList
      ∧ onDOMContentLoaded quirksPage = [⟨0, "submit", .handleSubmit⟩]
      ∧ (onDOMContentLoaded quirksPage).count ⟨0, "submit", .handleSubmit⟩ = 1 :=
  ⟨rfl, by decide, by decide, by decide, by decide⟩

end ConsultaActions
